import Mathlib

/-!
Shallow embedding of drivers/gpu/drm/panel/panel-sitronix-st7703.c.

The driver's observable behaviour is modelled as traces of events: bus
writes (generic or DCS), blocking delays, GPIO writes on the reset line,
and regulator enable/disable calls.  The host bus transport is modelled
as a function from the index of a bus write (counted from the start of
the driver entry point being run) to the integer return code of that
write; a negative code is a rejected write, matching the C `ret < 0`
checks.  Each driver entry point becomes a pure function from its inputs
(transport, regulator results, device state) to its integer result, its
event trace and the updated device state.
-/

/-- The two regulators owned by a device instance: core supply (vcc) and
I/O supply (iovcc), fields `vcc` and `iovcc` of `struct st7703`. -/
inductive Reg where
  | vcc
  | iovcc
deriving DecidableEq, Repr

/-- One bus write, in one of the two wire encodings of the source:
`mipi_dsi_generic_write` (payload sent as-is) or `mipi_dsi_dcs_write`
(a DCS command byte plus a parameter payload). -/
inductive BusWrite where
  | generic (payload : List Nat)
  | dcs (cmd : Nat) (params : List Nat)
deriving DecidableEq, Repr

/-- Observable events emitted by the driver code. `logErr` models a
`dev_err` diagnostic report (recorded only where a claim refers to it,
in `st7703_disable`). -/
inductive Event where
  | write (w : BusWrite)
  | sleep (ms : Nat)
  | usleepRange (lo hi : Nat)
  | gpioSet (value : Nat)
  | regEnable (r : Reg)
  | regDisable (r : Reg)
  | logErr
deriving DecidableEq, Repr

/-- One straight-line statement of an initialization script: either a
`dsi_generic_write_seq` / `dsi_dcs_write_seq` macro invocation (a bus
write followed by an early return when the transport rejects it) or an
unconditional `msleep`. -/
inductive Step where
  | write (w : BusWrite)
  | sleep (ms : Nat)
deriving DecidableEq, Repr

/-- `dsi_generic_write_seq(dsi, seq...)`: a generic write of the literal
bytes. -/
def dsi_generic_write_seq (payload : List Nat) : Step :=
  Step.write (BusWrite.generic payload)

/-- `dsi_dcs_write_seq(dsi, cmd, seq...)`: a DCS write of command `cmd`
with the literal parameter bytes. -/
def dsi_dcs_write_seq (cmd : Nat) (params : List Nat) : Step :=
  Step.write (BusWrite.dcs cmd params)

/- Manufacturer specific command ids (the ST7703_CMD_* defines). -/
def ST7703_CMD_ALL_PIXEL_ON : Nat := 0x23
def ST7703_CMD_SETDISP : Nat := 0xB2
def ST7703_CMD_SETRGBIF : Nat := 0xB3
def ST7703_CMD_SETCYC : Nat := 0xB4
def ST7703_CMD_SETBGP : Nat := 0xB5
def ST7703_CMD_SETVCOM : Nat := 0xB6
def ST7703_CMD_SETPOWER_EXT : Nat := 0xB8
def ST7703_CMD_SETEXTC : Nat := 0xB9
def ST7703_CMD_SETMIPI : Nat := 0xBA
def ST7703_CMD_SETVDC : Nat := 0xBC
def ST7703_CMD_UNKNOWN_BF : Nat := 0xBF
def ST7703_CMD_SETSCR : Nat := 0xC0
def ST7703_CMD_SETPOWER : Nat := 0xC1
def ST7703_CMD_SETPANEL : Nat := 0xCC
def ST7703_CMD_UNKNOWN_C6 : Nat := 0xC6
def ST7703_CMD_SETGAMMA : Nat := 0xE0
def ST7703_CMD_SETEQ : Nat := 0xE3
def ST7703_CMD_SETGIP1 : Nat := 0xE9
def ST7703_CMD_SETGIP2 : Nat := 0xEA

/- Standard DCS commands, from <video/mipi_display.h>. -/
def MIPI_DCS_ENTER_SLEEP_MODE : Nat := 0x10
def MIPI_DCS_EXIT_SLEEP_MODE : Nat := 0x11
def MIPI_DCS_SET_DISPLAY_OFF : Nat := 0x28
def MIPI_DCS_SET_DISPLAY_ON : Nat := 0x29

/-- `jh057n_init_sequence`: the straight-line body of the function,
one list entry per `dsi_generic_write_seq` / `msleep` statement.  Every
write is a generic write whose payload is the command id followed by
the literal parameter bytes. -/
def jh057n_init_sequence : List Step :=
  [ dsi_generic_write_seq ([ST7703_CMD_SETEXTC] ++
      [0xF1, 0x12, 0x83]),
    dsi_generic_write_seq ([ST7703_CMD_SETRGBIF] ++
      [0x10, 0x10, 0x05, 0x05, 0x03, 0xFF, 0x00, 0x00,
       0x00, 0x00]),
    dsi_generic_write_seq ([ST7703_CMD_SETSCR] ++
      [0x73, 0x73, 0x50, 0x50, 0x00, 0x00, 0x08, 0x70,
       0x00]),
    dsi_generic_write_seq ([ST7703_CMD_SETVDC] ++ [0x4E]),
    dsi_generic_write_seq ([ST7703_CMD_SETPANEL] ++ [0x0B]),
    dsi_generic_write_seq ([ST7703_CMD_SETCYC] ++ [0x80]),
    dsi_generic_write_seq ([ST7703_CMD_SETDISP] ++ [0xF0, 0x12, 0x30]),
    dsi_generic_write_seq ([ST7703_CMD_SETEQ] ++
      [0x07, 0x07, 0x0B, 0x0B, 0x03, 0x0B, 0x00, 0x00,
       0x00, 0x00, 0xFF, 0x00, 0xC0, 0x10]),
    dsi_generic_write_seq ([ST7703_CMD_SETBGP] ++ [0x08, 0x08]),
    Step.sleep 20,
    dsi_generic_write_seq ([ST7703_CMD_SETVCOM] ++ [0x3F, 0x3F]),
    dsi_generic_write_seq ([ST7703_CMD_UNKNOWN_BF] ++ [0x02, 0x11, 0x00]),
    dsi_generic_write_seq ([ST7703_CMD_SETGIP1] ++
      [0x82, 0x10, 0x06, 0x05, 0x9E, 0x0A, 0xA5, 0x12,
       0x31, 0x23, 0x37, 0x83, 0x04, 0xBC, 0x27, 0x38,
       0x0C, 0x00, 0x03, 0x00, 0x00, 0x00, 0x0C, 0x00,
       0x03, 0x00, 0x00, 0x00, 0x75, 0x75, 0x31, 0x88,
       0x88, 0x88, 0x88, 0x88, 0x88, 0x13, 0x88, 0x64,
       0x64, 0x20, 0x88, 0x88, 0x88, 0x88, 0x88, 0x88,
       0x02, 0x88, 0x00, 0x00, 0x00, 0x00, 0x00, 0x00,
       0x00, 0x00, 0x00, 0x00, 0x00, 0x00, 0x00]),
    dsi_generic_write_seq ([ST7703_CMD_SETGIP2] ++
      [0x02, 0x21, 0x00, 0x00, 0x00, 0x00, 0x00, 0x00,
       0x00, 0x00, 0x00, 0x00, 0x02, 0x46, 0x02, 0x88,
       0x88, 0x88, 0x88, 0x88, 0x88, 0x64, 0x88, 0x13,
       0x57, 0x13, 0x88, 0x88, 0x88, 0x88, 0x88, 0x88,
       0x75, 0x88, 0x23, 0x14, 0x00, 0x00, 0x02, 0x00,
       0x00, 0x00, 0x00, 0x00, 0x00, 0x00, 0x00, 0x00,
       0x00, 0x00, 0x00, 0x00, 0x00, 0x00, 0x30, 0x0A,
       0xA5, 0x00, 0x00, 0x00, 0x00]),
    dsi_generic_write_seq ([ST7703_CMD_SETGAMMA] ++
      [0x00, 0x09, 0x0E, 0x29, 0x2D, 0x3C, 0x41, 0x37,
       0x07, 0x0B, 0x0D, 0x10, 0x11, 0x0F, 0x10, 0x11,
       0x18, 0x00, 0x09, 0x0E, 0x29, 0x2D, 0x3C, 0x41,
       0x37, 0x07, 0x0B, 0x0D, 0x10, 0x11, 0x0F, 0x10,
       0x11, 0x18]) ]

/-- `xbd599_init_sequence`: every write is a DCS write of the command id
with the literal parameter bytes. -/
def xbd599_init_sequence : List Step :=
  [ dsi_dcs_write_seq ST7703_CMD_SETEXTC [0xF1, 0x12, 0x83],
    dsi_dcs_write_seq ST7703_CMD_SETMIPI
      [0x33, 0x81, 0x05, 0xF9, 0x0E, 0x0E,
       0x20, 0x00, 0x00, 0x00, 0x00, 0x00, 0x00, 0x00,
       0x44, 0x25, 0x00, 0x91, 0x0a, 0x00, 0x00, 0x02,
       0x4F, 0x11, 0x00, 0x00, 0x37],
    dsi_dcs_write_seq ST7703_CMD_SETPOWER_EXT
      [0x25, 0x22, 0x20, 0x03],
    dsi_dcs_write_seq ST7703_CMD_SETRGBIF
      [0x10, 0x10, 0x05, 0x05, 0x03, 0xFF,
       0x00, 0x00, 0x00, 0x00],
    dsi_dcs_write_seq ST7703_CMD_SETSCR
      [0x73, 0x73, 0x50, 0x50, 0x00, 0xC0, 0x08, 0x70, 0x00],
    dsi_dcs_write_seq ST7703_CMD_SETVDC [0x4E],
    dsi_dcs_write_seq ST7703_CMD_SETPANEL [0x0B],
    dsi_dcs_write_seq ST7703_CMD_SETCYC [0x80],
    dsi_dcs_write_seq ST7703_CMD_SETDISP [0xF0, 0x12, 0xF0],
    dsi_dcs_write_seq ST7703_CMD_SETEQ
      [0x00, 0x00, 0x0B, 0x0B, 0x10, 0x10, 0x00, 0x00,
       0x00, 0x00, 0xFF, 0x00, 0xC0, 0x10],
    dsi_dcs_write_seq ST7703_CMD_UNKNOWN_C6 [0x01, 0x00, 0xFF, 0xFF, 0x00],
    dsi_dcs_write_seq ST7703_CMD_SETPOWER
      [0x74, 0x00, 0x32, 0x32, 0x77, 0xF1,
       0xFF, 0xFF, 0xCC, 0xCC, 0x77, 0x77],
    dsi_dcs_write_seq ST7703_CMD_SETBGP [0x07, 0x07],
    Step.sleep 20,
    dsi_dcs_write_seq ST7703_CMD_SETVCOM [0x2C, 0x2C],
    dsi_dcs_write_seq ST7703_CMD_UNKNOWN_BF [0x02, 0x11, 0x00],
    dsi_dcs_write_seq ST7703_CMD_SETGIP1
      [0x82, 0x10, 0x06, 0x05, 0xA2, 0x0A, 0xA5, 0x12,
       0x31, 0x23, 0x37, 0x83, 0x04, 0xBC, 0x27, 0x38,
       0x0C, 0x00, 0x03, 0x00, 0x00, 0x00, 0x0C, 0x00,
       0x03, 0x00, 0x00, 0x00, 0x75, 0x75, 0x31, 0x88,
       0x88, 0x88, 0x88, 0x88, 0x88, 0x13, 0x88, 0x64,
       0x64, 0x20, 0x88, 0x88, 0x88, 0x88, 0x88, 0x88,
       0x02, 0x88, 0x00, 0x00, 0x00, 0x00, 0x00, 0x00,
       0x00, 0x00, 0x00, 0x00, 0x00, 0x00, 0x00],
    dsi_dcs_write_seq ST7703_CMD_SETGIP2
      [0x02, 0x21, 0x00, 0x00, 0x00, 0x00, 0x00, 0x00,
       0x00, 0x00, 0x00, 0x00, 0x02, 0x46, 0x02, 0x88,
       0x88, 0x88, 0x88, 0x88, 0x88, 0x64, 0x88, 0x13,
       0x57, 0x13, 0x88, 0x88, 0x88, 0x88, 0x88, 0x88,
       0x75, 0x88, 0x23, 0x14, 0x00, 0x00, 0x02, 0x00,
       0x00, 0x00, 0x00, 0x00, 0x00, 0x00, 0x00, 0x00,
       0x00, 0x00, 0x00, 0x00, 0x00, 0x00, 0x03, 0x0A,
       0xA5, 0x00, 0x00, 0x00, 0x00],
    dsi_dcs_write_seq ST7703_CMD_SETGAMMA
      [0x00, 0x09, 0x0D, 0x23, 0x27, 0x3C, 0x41, 0x35,
       0x07, 0x0D, 0x0E, 0x12, 0x13, 0x10, 0x12, 0x12,
       0x18, 0x00, 0x09, 0x0D, 0x23, 0x27, 0x3C, 0x41,
       0x35, 0x07, 0x0D, 0x0E, 0x12, 0x13, 0x10, 0x12,
       0x12, 0x18] ]

/-- `atm0784_init_sequence`: every write is a generic write; each command
block is issued as one two-byte generic write `[count, command-id]`
followed by a run of single-byte generic writes, one per parameter,
exactly as in the source (no `msleep` appears in this function). -/
def atm0784_init_sequence : List Step :=
  [ dsi_generic_write_seq [0x04, 0xB9],
    dsi_generic_write_seq [0xF1],
    dsi_generic_write_seq [0x12],
    dsi_generic_write_seq [0x83],
    dsi_generic_write_seq [0x04, 0xB2],
    dsi_generic_write_seq [0xC8],
    dsi_generic_write_seq [0x25],
    dsi_generic_write_seq [0xF0],
    dsi_generic_write_seq [0x0B, 0xB3],
    dsi_generic_write_seq [0x10],
    dsi_generic_write_seq [0x10],
    dsi_generic_write_seq [0x28],
    dsi_generic_write_seq [0x28],
    dsi_generic_write_seq [0x03],
    dsi_generic_write_seq [0xFF],
    dsi_generic_write_seq [0x00],
    dsi_generic_write_seq [0x00],
    dsi_generic_write_seq [0x00],
    dsi_generic_write_seq [0x00],
    dsi_generic_write_seq [0x02, 0xB4],
    dsi_generic_write_seq [0x80],
    dsi_generic_write_seq [0x03, 0xB5],
    dsi_generic_write_seq [0x0B],
    dsi_generic_write_seq [0x0B],
    dsi_generic_write_seq [0x03, 0xB6],
    dsi_generic_write_seq [0x50],
    dsi_generic_write_seq [0x50],
    dsi_generic_write_seq [0x02, 0xB8],
    dsi_generic_write_seq [0x26],
    dsi_generic_write_seq [0x1C, 0xBA],
    dsi_generic_write_seq [0x81],
    dsi_generic_write_seq [0x05],
    dsi_generic_write_seq [0xF9],
    dsi_generic_write_seq [0x0E],
    dsi_generic_write_seq [0x0E],
    dsi_generic_write_seq [0x20],
    dsi_generic_write_seq [0x00],
    dsi_generic_write_seq [0x00],
    dsi_generic_write_seq [0x00],
    dsi_generic_write_seq [0x00],
    dsi_generic_write_seq [0x00],
    dsi_generic_write_seq [0x00],
    dsi_generic_write_seq [0x00],
    dsi_generic_write_seq [0x44],
    dsi_generic_write_seq [0x25],
    dsi_generic_write_seq [0x00],
    dsi_generic_write_seq [0x90],
    dsi_generic_write_seq [0x0A],
    dsi_generic_write_seq [0x00],
    dsi_generic_write_seq [0x00],
    dsi_generic_write_seq [0x01],
    dsi_generic_write_seq [0x4F],
    dsi_generic_write_seq [0x01],
    dsi_generic_write_seq [0x00],
    dsi_generic_write_seq [0x00],
    dsi_generic_write_seq [0x37],
    dsi_generic_write_seq [0x02, 0xBC],
    dsi_generic_write_seq [0x46],
    dsi_generic_write_seq [0x04, 0xBF],
    dsi_generic_write_seq [0x02],
    dsi_generic_write_seq [0x11],
    dsi_generic_write_seq [0x00],
    dsi_generic_write_seq [0x0A, 0xC0],
    dsi_generic_write_seq [0x73],
    dsi_generic_write_seq [0x73],
    dsi_generic_write_seq [0x50],
    dsi_generic_write_seq [0x50],
    dsi_generic_write_seq [0x00],
    dsi_generic_write_seq [0x00],
    dsi_generic_write_seq [0x08],
    dsi_generic_write_seq [0x70],
    dsi_generic_write_seq [0x00],
    dsi_generic_write_seq [0x0D, 0xC1],
    dsi_generic_write_seq [0x25],
    dsi_generic_write_seq [0x00],
    dsi_generic_write_seq [0x32],
    dsi_generic_write_seq [0x32],
    dsi_generic_write_seq [0x99],
    dsi_generic_write_seq [0xE4],
    dsi_generic_write_seq [0xFF],
    dsi_generic_write_seq [0xFF],
    dsi_generic_write_seq [0xEE],
    dsi_generic_write_seq [0xEE],
    dsi_generic_write_seq [0x77],
    dsi_generic_write_seq [0x77],
    dsi_generic_write_seq [0x02, 0xCC],
    dsi_generic_write_seq [0x0B],
    dsi_generic_write_seq [0x23, 0xE0],
    dsi_generic_write_seq [0x00],
    dsi_generic_write_seq [0x0D],
    dsi_generic_write_seq [0x14],
    dsi_generic_write_seq [0x2C],
    dsi_generic_write_seq [0x32],
    dsi_generic_write_seq [0x3F],
    dsi_generic_write_seq [0x47],
    dsi_generic_write_seq [0x3C],
    dsi_generic_write_seq [0x07],
    dsi_generic_write_seq [0x0E],
    dsi_generic_write_seq [0x10],
    dsi_generic_write_seq [0x13],
    dsi_generic_write_seq [0x15],
    dsi_generic_write_seq [0x13],
    dsi_generic_write_seq [0x14],
    dsi_generic_write_seq [0x0F],
    dsi_generic_write_seq [0x17],
    dsi_generic_write_seq [0x00],
    dsi_generic_write_seq [0x0D],
    dsi_generic_write_seq [0x14],
    dsi_generic_write_seq [0x2C],
    dsi_generic_write_seq [0x32],
    dsi_generic_write_seq [0x3F],
    dsi_generic_write_seq [0x47],
    dsi_generic_write_seq [0x3C],
    dsi_generic_write_seq [0x07],
    dsi_generic_write_seq [0x0E],
    dsi_generic_write_seq [0x10],
    dsi_generic_write_seq [0x13],
    dsi_generic_write_seq [0x15],
    dsi_generic_write_seq [0x13],
    dsi_generic_write_seq [0x14],
    dsi_generic_write_seq [0x0F],
    dsi_generic_write_seq [0x17],
    dsi_generic_write_seq [0x0F, 0xE3],
    dsi_generic_write_seq [0x07],
    dsi_generic_write_seq [0x07],
    dsi_generic_write_seq [0x0B],
    dsi_generic_write_seq [0x0B],
    dsi_generic_write_seq [0x03],
    dsi_generic_write_seq [0x03],
    dsi_generic_write_seq [0x00],
    dsi_generic_write_seq [0x00],
    dsi_generic_write_seq [0x00],
    dsi_generic_write_seq [0x00],
    dsi_generic_write_seq [0xFF],
    dsi_generic_write_seq [0x80],
    dsi_generic_write_seq [0xC0],
    dsi_generic_write_seq [0x10],
    dsi_generic_write_seq [0x40, 0xE9],
    dsi_generic_write_seq [0xC8],
    dsi_generic_write_seq [0x10],
    dsi_generic_write_seq [0x0A],
    dsi_generic_write_seq [0x10],
    dsi_generic_write_seq [0x0E],
    dsi_generic_write_seq [0x80],
    dsi_generic_write_seq [0x81],
    dsi_generic_write_seq [0x12],
    dsi_generic_write_seq [0x31],
    dsi_generic_write_seq [0x23],
    dsi_generic_write_seq [0x4F],
    dsi_generic_write_seq [0x86],
    dsi_generic_write_seq [0x80],
    dsi_generic_write_seq [0x38],
    dsi_generic_write_seq [0x47],
    dsi_generic_write_seq [0x08],
    dsi_generic_write_seq [0x00],
    dsi_generic_write_seq [0x0E],
    dsi_generic_write_seq [0x0C],
    dsi_generic_write_seq [0x00],
    dsi_generic_write_seq [0x02],
    dsi_generic_write_seq [0x00],
    dsi_generic_write_seq [0x00],
    dsi_generic_write_seq [0x0E],
    dsi_generic_write_seq [0x0C],
    dsi_generic_write_seq [0x00],
    dsi_generic_write_seq [0x02],
    dsi_generic_write_seq [0x00],
    dsi_generic_write_seq [0x8F],
    dsi_generic_write_seq [0x94],
    dsi_generic_write_seq [0x46],
    dsi_generic_write_seq [0x02],
    dsi_generic_write_seq [0x8A],
    dsi_generic_write_seq [0x02],
    dsi_generic_write_seq [0x88],
    dsi_generic_write_seq [0x88],
    dsi_generic_write_seq [0x88],
    dsi_generic_write_seq [0x88],
    dsi_generic_write_seq [0x88],
    dsi_generic_write_seq [0x8F],
    dsi_generic_write_seq [0x94],
    dsi_generic_write_seq [0x57],
    dsi_generic_write_seq [0x13],
    dsi_generic_write_seq [0x8A],
    dsi_generic_write_seq [0x13],
    dsi_generic_write_seq [0x88],
    dsi_generic_write_seq [0x88],
    dsi_generic_write_seq [0x88],
    dsi_generic_write_seq [0x88],
    dsi_generic_write_seq [0x88],
    dsi_generic_write_seq [0x00],
    dsi_generic_write_seq [0x00],
    dsi_generic_write_seq [0x00],
    dsi_generic_write_seq [0x01],
    dsi_generic_write_seq [0x00],
    dsi_generic_write_seq [0x80],
    dsi_generic_write_seq [0x38],
    dsi_generic_write_seq [0x00],
    dsi_generic_write_seq [0x00],
    dsi_generic_write_seq [0x00],
    dsi_generic_write_seq [0x00],
    dsi_generic_write_seq [0x00],
    dsi_generic_write_seq [0x00],
    dsi_generic_write_seq [0x3E, 0xEA],
    dsi_generic_write_seq [0x00],
    dsi_generic_write_seq [0x1A],
    dsi_generic_write_seq [0x00],
    dsi_generic_write_seq [0x00],
    dsi_generic_write_seq [0x00],
    dsi_generic_write_seq [0x00],
    dsi_generic_write_seq [0x01],
    dsi_generic_write_seq [0x0C],
    dsi_generic_write_seq [0x41],
    dsi_generic_write_seq [0x01],
    dsi_generic_write_seq [0x02],
    dsi_generic_write_seq [0x00],
    dsi_generic_write_seq [0xF8],
    dsi_generic_write_seq [0x94],
    dsi_generic_write_seq [0x31],
    dsi_generic_write_seq [0x75],
    dsi_generic_write_seq [0x8A],
    dsi_generic_write_seq [0x31],
    dsi_generic_write_seq [0x88],
    dsi_generic_write_seq [0x88],
    dsi_generic_write_seq [0x88],
    dsi_generic_write_seq [0x88],
    dsi_generic_write_seq [0x88],
    dsi_generic_write_seq [0xF8],
    dsi_generic_write_seq [0x94],
    dsi_generic_write_seq [0x20],
    dsi_generic_write_seq [0x64],
    dsi_generic_write_seq [0x8A],
    dsi_generic_write_seq [0x20],
    dsi_generic_write_seq [0x88],
    dsi_generic_write_seq [0x88],
    dsi_generic_write_seq [0x88],
    dsi_generic_write_seq [0x88],
    dsi_generic_write_seq [0x88],
    dsi_generic_write_seq [0x23],
    dsi_generic_write_seq [0x00],
    dsi_generic_write_seq [0x00],
    dsi_generic_write_seq [0x01],
    dsi_generic_write_seq [0x28],
    dsi_generic_write_seq [0x00],
    dsi_generic_write_seq [0x00],
    dsi_generic_write_seq [0x00],
    dsi_generic_write_seq [0x00],
    dsi_generic_write_seq [0x00],
    dsi_generic_write_seq [0x00],
    dsi_generic_write_seq [0x00],
    dsi_generic_write_seq [0x00],
    dsi_generic_write_seq [0x00],
    dsi_generic_write_seq [0x00],
    dsi_generic_write_seq [0x00],
    dsi_generic_write_seq [0x05],
    dsi_generic_write_seq [0x0B],
    dsi_generic_write_seq [0x00],
    dsi_generic_write_seq [0x00],
    dsi_generic_write_seq [0x40],
    dsi_generic_write_seq [0x80],
    dsi_generic_write_seq [0x81],
    dsi_generic_write_seq [0x40],
    dsi_generic_write_seq [0x80],
    dsi_generic_write_seq [0x81],
    dsi_generic_write_seq [0x00] ]

/-- The three supported hardware models, one per entry of
`st7703_of_match` / per `st7703_panel_desc`. -/
inductive Model where
  | jh057n00900
  | xbd599
  | atm0784
deriving DecidableEq, Repr

/-- The `init_sequence` field of the bound panel descriptor: dispatches
to the model's initialization script. -/
def init_sequence : Model → List Step
  | Model.jh057n00900 => jh057n_init_sequence
  | Model.xbd599 => xbd599_init_sequence
  | Model.atm0784 => atm0784_init_sequence

/-- Run a straight-line script body.  `tr` is the transport, `i` the
index of the next bus write.  A `write` step issues the write and, when
the transport returns a negative code, returns that code immediately
(the early `return ret` of the write macros); a `sleep` step is
unconditional.  Returns (result, next write index, event trace). -/
def runSteps (tr : Nat → Int) : List Step → Nat → Int × Nat × List Event
  | [], i => (0, i, [])
  | Step.sleep ms :: rest, i =>
    let r := runSteps tr rest i
    (r.1, r.2.1, Event.sleep ms :: r.2.2)
  | Step.write w :: rest, i =>
    if tr i < 0 then
      (tr i, i + 1, [Event.write w])
    else
      let r := runSteps tr rest (i + 1)
      (r.1, r.2.1, Event.write w :: r.2.2)

/-- The bus writes of a script body, in order. -/
def stepWrites (steps : List Step) : List BusWrite :=
  steps.filterMap fun s =>
    match s with
    | Step.write w => some w
    | Step.sleep _ => none

/-- The event a script step emits when it completes. -/
def stepEvent : Step → Event
  | Step.write w => Event.write w
  | Step.sleep ms => Event.sleep ms

/-- The bus writes recorded in an event trace, in order. -/
def writeEvents (evs : List Event) : List BusWrite :=
  evs.filterMap fun e =>
    match e with
    | Event.write w => some w
    | _ => none

/-- Number of bus writes in a model's initialization script. -/
def scriptWriteCount (m : Model) : Nat :=
  (stepWrites (init_sequence m)).length

/-- Runtime state of a device instance: the `prepared` flag of
`struct st7703`. -/
structure St7703 where
  prepared : Bool
deriving DecidableEq, Repr

/-- `st7703_enable`: runs the bound descriptor's init_sequence, and on
success waits 20 ms, issues the DCS exit-sleep-mode command, waits
250 ms, issues the DCS display-on command (error checked with
`if (ret)`, i.e. any nonzero result), waits 50 ms.  Each failure is
returned immediately. -/
def st7703_enable (m : Model) (tr : Nat → Int) (st : St7703) :
    Int × List Event × St7703 :=
  let r := runSteps tr (init_sequence m) 0
  if r.1 < 0 then
    (r.1, r.2.2, st)
  else
    let i := r.2.1
    let evs := r.2.2 ++ [Event.sleep 20,
      Event.write (BusWrite.dcs MIPI_DCS_EXIT_SLEEP_MODE [])]
    if tr i < 0 then
      (tr i, evs, st)
    else
      let evs2 := evs ++ [Event.sleep 250,
        Event.write (BusWrite.dcs MIPI_DCS_SET_DISPLAY_ON [])]
      if tr (i + 1) ≠ 0 then
        (tr (i + 1), evs2, st)
      else
        (0, evs2 ++ [Event.sleep 50], st)

/-- `st7703_disable`: issues the DCS display-off command, reporting (not
propagating) a failure via `dev_err`, then the DCS enter-sleep-mode
command likewise, and returns 0.  The `prepared` flag is not touched. -/
def st7703_disable (tr : Nat → Int) (st : St7703) :
    Int × List Event × St7703 :=
  let evs1 := [Event.write (BusWrite.dcs MIPI_DCS_SET_DISPLAY_OFF [])] ++
    (if tr 0 < 0 then [Event.logErr] else [])
  let evs2 := [Event.write (BusWrite.dcs MIPI_DCS_ENTER_SLEEP_MODE [])] ++
    (if tr 1 < 0 then [Event.logErr] else [])
  (0, evs1 ++ evs2, st)

/-- `st7703_unprepare`: no-op returning 0 when not prepared; otherwise
asserts the reset line, disables iovcc, disables vcc, clears
`prepared`. -/
def st7703_unprepare (st : St7703) : Int × List Event × St7703 :=
  if !st.prepared then
    (0, [], st)
  else
    (0, [Event.gpioSet 1, Event.regDisable Reg.iovcc,
         Event.regDisable Reg.vcc],
     { st with prepared := false })

/-- `st7703_prepare`: no-op returning 0 when already prepared; otherwise
enables vcc (returning its error when negative), enables iovcc (on a
negative result disables vcc again and returns the error), pulses the
reset line (active, 20-40 us, inactive), waits 20 ms and sets
`prepared`.  `vccRet` and `iovccRet` are the results the two
`regulator_enable` calls would produce. -/
def st7703_prepare (vccRet iovccRet : Int) (st : St7703) :
    Int × List Event × St7703 :=
  if st.prepared then
    (0, [], st)
  else if vccRet < 0 then
    (vccRet, [Event.regEnable Reg.vcc], st)
  else if iovccRet < 0 then
    (iovccRet, [Event.regEnable Reg.vcc, Event.regEnable Reg.iovcc,
                Event.regDisable Reg.vcc], st)
  else
    (0, [Event.regEnable Reg.vcc, Event.regEnable Reg.iovcc,
         Event.gpioSet 1, Event.usleepRange 20 40, Event.gpioSet 0,
         Event.sleep 20],
     { st with prepared := true })

/-- `st7703_shutdown`: calls `drm_panel_unprepare` and then
`drm_panel_disable` on the instance's panel, in that source order,
ignoring their results apart from reporting. -/
def st7703_shutdown (tr : Nat → Int) (st : St7703) :
    List Event × St7703 :=
  let r1 := st7703_unprepare st
  let r2 := st7703_disable tr r1.2.2
  (r1.2.1 ++ r2.2.1, r2.2.2)

/-- `st7703_remove`: calls `st7703_shutdown`, then detaches from the
host and destroys the panel instance, returning 0. -/
def st7703_remove (tr : Nat → Int) (st : St7703) :
    Int × List Event × St7703 :=
  let r := st7703_shutdown tr st
  (0, r.1, r.2)

/-- Split a flat list of generic writes into atm0784-style command
blocks: a two-byte write `[count, cmd]` opens a block; each single-byte
write contributes one parameter to the block opened before it.  Returns
(leading parameter bytes not owned by any block, blocks as
(count, command id, parameter bytes)). -/
def splitBlocks (ws : List BusWrite) :
    List Nat × List (Nat × Nat × List Nat) :=
  ws.foldr
    (fun w acc =>
      match w with
      | BusWrite.generic [c, cmd] => ([], (c, cmd, acc.1) :: acc.2)
      | BusWrite.generic [b] => (b :: acc.1, acc.2)
      | _ => acc)
    ([], [])

/-- The command blocks of the atm0784 initialization script. -/
def atm0784Blocks : List (Nat × Nat × List Nat) :=
  (splitBlocks (stepWrites atm0784_init_sequence)).2

/-- The `msleep` durations occurring in a script body, in order. -/
def scriptSleeps (steps : List Step) : List Nat :=
  steps.filterMap fun s =>
    match s with
    | Step.sleep ms => some ms
    | Step.write _ => none

/-- Whether a bus write uses the generic-write encoding. -/
def isGenericWrite : BusWrite → Bool
  | BusWrite.generic _ => true
  | BusWrite.dcs _ _ => false

/-- Whether a bus write uses the DCS encoding. -/
def isDcsWrite : BusWrite → Bool
  | BusWrite.generic _ => false
  | BusWrite.dcs _ _ => true

/-- The regulators enabled in an event trace, in order. -/
def regEnables (evs : List Event) : List Reg :=
  evs.filterMap fun e =>
    match e with
    | Event.regEnable r => some r
    | _ => none

/-- The regulators disabled in an event trace, in order. -/
def regDisables (evs : List Event) : List Reg :=
  evs.filterMap fun e =>
    match e with
    | Event.regDisable r => some r
    | _ => none

section RunStepsLemmas

/-- When the transport accepts every write a script consults, the script
returns 0, advances the write index by its write count, and emits one
event per step, in program order. -/
theorem runSteps_ok (tr : Nat → Int) :
    ∀ (steps : List Step) (i0 : Nat),
    (∀ j, j < (stepWrites steps).length → 0 ≤ tr (i0 + j)) →
    runSteps tr steps i0 =
      (0, i0 + (stepWrites steps).length, steps.map stepEvent) := by
  intro steps
  induction steps with
  | nil =>
    intro i0 _
    simp [runSteps, stepWrites]
  | cons s rest ih =>
    intro i0 h
    cases s with
    | sleep ms =>
      have hrest := ih i0 (by simpa [stepWrites] using h)
      simp [runSteps, stepWrites, stepEvent, hrest]
    | write w =>
      have h0 : 0 ≤ tr i0 := by
        have := h 0 (by simp [stepWrites])
        simpa using this
      have hrest := ih (i0 + 1) (by
        intro j hj
        have := h (j + 1) (by simp [stepWrites] at hj ⊢; omega)
        have harith : i0 + (j + 1) = i0 + 1 + j := by omega
        rwa [harith] at this)
      have hnot : ¬ tr i0 < 0 := not_lt.2 h0
      simp only [runSteps, if_neg hnot, hrest]
      simp [stepWrites, stepEvent]
      omega

/-- When the transport first rejects the write at (0-based) offset `k`
into the script's writes, the script returns that code and its trace
records exactly the writes up to and including the rejected one. -/
theorem runSteps_fail (tr : Nat → Int) :
    ∀ (steps : List Step) (i0 k : Nat),
    k < (stepWrites steps).length →
    (∀ j, j < k → 0 ≤ tr (i0 + j)) →
    tr (i0 + k) < 0 →
    (runSteps tr steps i0).1 = tr (i0 + k) ∧
    writeEvents (runSteps tr steps i0).2.2 =
      (stepWrites steps).take (k + 1) := by
  intro steps
  induction steps with
  | nil =>
    intro i0 k hk _ _
    simp [stepWrites] at hk
  | cons s rest ih =>
    intro i0 k hk hacc hrej
    cases s with
    | sleep ms =>
      have := ih i0 k (by simpa [stepWrites] using hk) hacc hrej
      simpa [runSteps, stepWrites, writeEvents] using this
    | write w =>
      cases k with
      | zero =>
        have h0 : tr i0 < 0 := by simpa using hrej
        constructor
        · simp [runSteps, if_pos h0]
        · simp [runSteps, if_pos h0, writeEvents, stepWrites]
      | succ k =>
        have h0 : 0 ≤ tr i0 := by
          have := hacc 0 (Nat.succ_pos k)
          simpa using this
        have hnot : ¬ tr i0 < 0 := not_lt.2 h0
        have hrec := ih (i0 + 1) k
          (by simp [stepWrites] at hk ⊢; omega)
          (by
            intro j hj
            have := hacc (j + 1) (by omega)
            have harith : i0 + (j + 1) = i0 + 1 + j := by omega
            rwa [harith] at this)
          (by
            have harith : i0 + (k + 1) = i0 + 1 + k := by omega
            rwa [harith] at hrej)
        have harith : i0 + (k + 1) = i0 + 1 + k := by omega
        constructor
        · simp only [runSteps, if_neg hnot]
          rw [harith]
          exact hrec.1
        · simp only [runSteps, if_neg hnot, writeEvents, List.filterMap_cons,
            stepWrites]
          simpa [writeEvents, stepWrites] using hrec.2

/-- Extracting the writes of the per-step event list gives the script's
write list. -/
theorem writeEvents_map_stepEvent (steps : List Step) :
    writeEvents (steps.map stepEvent) = stepWrites steps := by
  induction steps with
  | nil => simp [writeEvents, stepWrites]
  | cons s rest ih =>
    cases s with
    | sleep ms => simpa [writeEvents, stepWrites, stepEvent] using ih
    | write w => simpa [writeEvents, stepWrites, stepEvent] using ih

/-- A bus write recorded in a trace is a `write` event of that trace. -/
theorem mem_of_mem_writeEvents {w : BusWrite} {evs : List Event}
    (h : Event.write w ∈ evs) : w ∈ writeEvents evs := by
  unfold writeEvents
  exact List.mem_filterMap.2 ⟨Event.write w, h, rfl⟩

/-- A sleep step of a script contributes its duration to
`scriptSleeps`. -/
theorem mem_scriptSleeps_of_mem {ms : Nat} {steps : List Step}
    (h : Step.sleep ms ∈ steps) : ms ∈ scriptSleeps steps := by
  unfold scriptSleeps
  exact List.mem_filterMap.2 ⟨Step.sleep ms, h, rfl⟩

end RunStepsLemmas

set_option maxRecDepth 100000

/-- Neither the DCS exit-sleep-mode command nor the DCS display-on
command occurs among any model's script writes. -/
theorem scripts_lack_exit_sleep_and_display_on (m : Model) :
    BusWrite.dcs MIPI_DCS_EXIT_SLEEP_MODE [] ∉ stepWrites (init_sequence m) ∧
    BusWrite.dcs MIPI_DCS_SET_DISPLAY_ON [] ∉ stepWrites (init_sequence m) := by
  cases m <;> exact ⟨by decide, by decide⟩

/-- C2: for each of the three supported models, running that model's
initialization script against a recording transport that accepts every
write succeeds (returns 0) and records exactly the script's literal
writes, in order, one event per script statement; every write of the
jh057n00900 and atm0784 scripts uses the generic-write encoding and
every write of the xbd599 script uses the DCS encoding. -/
theorem st7703_init_scripts_replay_exact :
    (∀ m : Model, runSteps (fun _ => 0) (init_sequence m) 0 =
      (0, scriptWriteCount m, (init_sequence m).map stepEvent)) ∧
    (∀ m : Model,
      writeEvents (runSteps (fun _ => 0) (init_sequence m) 0).2.2 =
        stepWrites (init_sequence m)) ∧
    (stepWrites jh057n_init_sequence).all isGenericWrite = true ∧
    (stepWrites xbd599_init_sequence).all isDcsWrite = true ∧
    (stepWrites atm0784_init_sequence).all isGenericWrite = true := by
  have hrun : ∀ m : Model, runSteps (fun _ => 0) (init_sequence m) 0 =
      (0, scriptWriteCount m, (init_sequence m).map stepEvent) := by
    intro m
    have := runSteps_ok (fun _ => 0) (init_sequence m) 0
      (fun j _ => le_refl 0)
    simpa [scriptWriteCount] using this
  refine ⟨hrun, ?_, by decide, by decide, by decide⟩
  intro m
  rw [hrun m]
  exact writeEvents_map_stepEvent (init_sequence m)

/-- C10: st7703_disable returns 0 for every outcome of its two bus
writes, leaves the device state (hence the prepared flag) untouched,
and neither its trace nor its result depends on the device state. -/
theorem st7703_disable_returns_zero (tr : Nat → Int) (st st2 : St7703) :
    (st7703_disable tr st).1 = 0 ∧
    (st7703_disable tr st).2.2 = st ∧
    (st7703_disable tr st).2.1 = (st7703_disable tr st2).2.1 ∧
    (st7703_disable tr st).1 = (st7703_disable tr st2).1 := by
  refine ⟨rfl, rfl, rfl, rfl⟩

/-- C6: st7703_disable attempts both teardown commands: its trace always
records the display-off write followed by the enter-sleep-mode write,
and when the display-off write fails the error is only reported (a
dev_err event) and the enter-sleep-mode write is still issued. -/
theorem st7703_disable_attempts_both (tr : Nat → Int) (st : St7703)
    (h : tr 0 < 0) :
    writeEvents (st7703_disable tr st).2.1 =
      [BusWrite.dcs MIPI_DCS_SET_DISPLAY_OFF [],
       BusWrite.dcs MIPI_DCS_ENTER_SLEEP_MODE []] ∧
    (st7703_disable tr st).2.1 =
      [Event.write (BusWrite.dcs MIPI_DCS_SET_DISPLAY_OFF []), Event.logErr,
       Event.write (BusWrite.dcs MIPI_DCS_ENTER_SLEEP_MODE [])] ++
      (if tr 1 < 0 then [Event.logErr] else []) := by
  constructor
  · by_cases h1 : tr 1 < 0 <;> simp [st7703_disable, writeEvents, h, h1]
  · simp [st7703_disable, h]

/-- Witness for C6 at the transport that rejects every write. -/
theorem st7703_disable_attempts_both_witness :
    ((fun _ : Nat => (-1 : Int)) 0 < 0) ∧
    writeEvents (st7703_disable (fun _ => -1) ⟨true⟩).2.1 =
      [BusWrite.dcs MIPI_DCS_SET_DISPLAY_OFF [],
       BusWrite.dcs MIPI_DCS_ENTER_SLEEP_MODE []] :=
  ⟨by decide, (st7703_disable_attempts_both (fun _ => -1) ⟨true⟩ (by decide)).1⟩

/-- C4: in st7703_prepare, when enabling iovcc yields a negative code
after vcc was enabled, vcc is disabled again (rollback), the iovcc
error is returned, no reset-line (GPIO) event occurs, and the prepared
flag remains false. -/
theorem st7703_prepare_iovcc_rollback (vccRet iovccRet : Int) (st : St7703)
    (hp : st.prepared = false) (hv : 0 ≤ vccRet) (hi : iovccRet < 0) :
    st7703_prepare vccRet iovccRet st =
      (iovccRet,
       [Event.regEnable Reg.vcc, Event.regEnable Reg.iovcc,
        Event.regDisable Reg.vcc], st) ∧
    ((st7703_prepare vccRet iovccRet st).2.2).prepared = false ∧
    (∀ v, Event.gpioSet v ∉ (st7703_prepare vccRet iovccRet st).2.1) := by
  have h1 : ¬ vccRet < 0 := not_lt.2 hv
  refine ⟨?_, ?_, ?_⟩ <;> simp [st7703_prepare, hp, h1, hi]

/-- Witness for C4 with vcc succeeding and iovcc failing with -22. -/
theorem st7703_prepare_iovcc_rollback_witness :
    (St7703.mk false).prepared = false ∧ (0 : Int) ≤ 0 ∧ (-22 : Int) < 0 ∧
    st7703_prepare 0 (-22) ⟨false⟩ =
      (-22,
       [Event.regEnable Reg.vcc, Event.regEnable Reg.iovcc,
        Event.regDisable Reg.vcc], ⟨false⟩) :=
  ⟨rfl, by decide, by decide,
   (st7703_prepare_iovcc_rollback 0 (-22) ⟨false⟩ rfl (by decide)
     (by decide)).1⟩

/-- C8: from an unprepared state, st7703_prepare enables the regulators
in the order [vcc, iovcc] and st7703_unprepare then disables them in
the exact reverse order [iovcc, vcc]; st7703_prepare is a no-op
performing zero operations when already prepared, and st7703_unprepare
is a no-op performing zero operations when not prepared. -/
theorem st7703_prepare_unprepare_reverse (st : St7703)
    (hp : st.prepared = false) :
    regEnables (st7703_prepare 0 0 st).2.1 = [Reg.vcc, Reg.iovcc] ∧
    regDisables (st7703_unprepare (st7703_prepare 0 0 st).2.2).2.1 =
      [Reg.vcc, Reg.iovcc].reverse ∧
    (∀ vccRet iovccRet : Int, ∀ st2 : St7703, st2.prepared = true →
      st7703_prepare vccRet iovccRet st2 = (0, [], st2)) ∧
    st7703_unprepare st = (0, [], st) := by
  refine ⟨?_, ?_, ?_, ?_⟩
  · simp [st7703_prepare, hp, regEnables]
  · simp [st7703_prepare, st7703_unprepare, hp, regDisables]
  · intro vccRet iovccRet st2 h2
    simp [st7703_prepare, h2]
  · simp [st7703_unprepare, hp]

/-- Witness for C8 at the unprepared state. -/
theorem st7703_prepare_unprepare_reverse_witness :
    (St7703.mk false).prepared = false ∧
    regEnables (st7703_prepare 0 0 ⟨false⟩).2.1 = [Reg.vcc, Reg.iovcc] :=
  ⟨rfl, (st7703_prepare_unprepare_reverse ⟨false⟩ rfl).1⟩

/-- C7: when every script write succeeds, st7703_enable appends to the
script's events exactly: a 20 ms wait, the exit-sleep-mode write, a
250 ms wait, the display-on write, and a 50 ms wait (when both built-in
commands succeed, returning 0); when the exit-sleep-mode write fails
its code is returned at once with no 250 ms or 50 ms wait and no
display-on write, and when the display-on write fails (any nonzero
code, matching the source's `if (ret)`) its code is returned at once
with no 50 ms wait. -/
theorem st7703_enable_spec (m : Model) (tr : Nat → Int) (st : St7703)
    (hs : ∀ j, j < scriptWriteCount m → tr j = 0) :
    (tr (scriptWriteCount m) < 0 →
      st7703_enable m tr st =
        (tr (scriptWriteCount m),
         (init_sequence m).map stepEvent ++
           [Event.sleep 20,
            Event.write (BusWrite.dcs MIPI_DCS_EXIT_SLEEP_MODE [])],
         st)) ∧
    (0 ≤ tr (scriptWriteCount m) → tr (scriptWriteCount m + 1) ≠ 0 →
      st7703_enable m tr st =
        (tr (scriptWriteCount m + 1),
         (init_sequence m).map stepEvent ++
           [Event.sleep 20,
            Event.write (BusWrite.dcs MIPI_DCS_EXIT_SLEEP_MODE []),
            Event.sleep 250,
            Event.write (BusWrite.dcs MIPI_DCS_SET_DISPLAY_ON [])],
         st)) ∧
    (0 ≤ tr (scriptWriteCount m) → tr (scriptWriteCount m + 1) = 0 →
      st7703_enable m tr st =
        (0,
         (init_sequence m).map stepEvent ++
           [Event.sleep 20,
            Event.write (BusWrite.dcs MIPI_DCS_EXIT_SLEEP_MODE []),
            Event.sleep 250,
            Event.write (BusWrite.dcs MIPI_DCS_SET_DISPLAY_ON []),
            Event.sleep 50],
         st)) := by
  have hok : runSteps tr (init_sequence m) 0 =
      (0, 0 + scriptWriteCount m, (init_sequence m).map stepEvent) := by
    apply runSteps_ok
    intro j hj
    rw [Nat.zero_add]
    exact le_of_eq (hs j (by simpa [scriptWriteCount] using hj)).symm
  refine ⟨?_, ?_, ?_⟩
  · intro h1
    simp only [st7703_enable, hok, Nat.zero_add]
    rw [if_neg (lt_irrefl 0), if_pos h1]
  · intro h1 h2
    simp only [st7703_enable, hok, Nat.zero_add]
    rw [if_neg (lt_irrefl 0), if_neg (not_lt.2 h1), if_pos h2]
    simp
  · intro h1 h2
    simp only [st7703_enable, hok, Nat.zero_add]
    rw [if_neg (lt_irrefl 0), if_neg (not_lt.2 h1),
      if_neg (not_not_intro h2)]
    simp

/-- Witness for C7: the always-accepting transport on the jh057n00900
script runs the full success sequence. -/
theorem st7703_enable_spec_witness :
    ((fun _ : Nat => (0 : Int)) 1 = 0) ∧
    st7703_enable Model.jh057n00900 (fun _ => 0) ⟨true⟩ =
      (0,
       (init_sequence Model.jh057n00900).map stepEvent ++
         [Event.sleep 20,
          Event.write (BusWrite.dcs MIPI_DCS_EXIT_SLEEP_MODE []),
          Event.sleep 250,
          Event.write (BusWrite.dcs MIPI_DCS_SET_DISPLAY_ON []),
          Event.sleep 50],
       ⟨true⟩) :=
  ⟨rfl,
   (st7703_enable_spec Model.jh057n00900 (fun _ => 0) ⟨true⟩
     (fun _ _ => rfl)).2.2 (le_refl 0) rfl⟩

/-- C3: for every model and every (1-based) step index k of that
model's script writes, if the transport accepts the first k-1 writes
and rejects the k-th with a negative code, then the script issues
exactly the first k writes (the rejected one included), the script and
st7703_enable both return that code, no exit-sleep-mode or display-on
command is sent, and the device state (hence the prepared flag) is
unchanged. -/
theorem st7703_script_fail_fast (m : Model) (tr : Nat → Int) (st : St7703)
    (k : Nat) (hk1 : 1 ≤ k) (hk2 : k ≤ scriptWriteCount m)
    (hacc : ∀ j, j < k - 1 → 0 ≤ tr j) (hrej : tr (k - 1) < 0) :
    (runSteps tr (init_sequence m) 0).1 = tr (k - 1) ∧
    writeEvents (runSteps tr (init_sequence m) 0).2.2 =
      (stepWrites (init_sequence m)).take k ∧
    (st7703_enable m tr st).1 = tr (k - 1) ∧
    (st7703_enable m tr st).2.1 = (runSteps tr (init_sequence m) 0).2.2 ∧
    Event.write (BusWrite.dcs MIPI_DCS_EXIT_SLEEP_MODE []) ∉
      (st7703_enable m tr st).2.1 ∧
    Event.write (BusWrite.dcs MIPI_DCS_SET_DISPLAY_ON []) ∉
      (st7703_enable m tr st).2.1 ∧
    (st7703_enable m tr st).2.2 = st := by
  have hlen : k - 1 < (stepWrites (init_sequence m)).length := by
    have : scriptWriteCount m = (stepWrites (init_sequence m)).length := rfl
    omega
  have hfail := runSteps_fail tr (init_sequence m) 0 (k - 1) hlen
    (fun j hj => by simpa using hacc j hj)
    (by simpa using hrej)
  have hk : k - 1 + 1 = k := by omega
  have h1 : (runSteps tr (init_sequence m) 0).1 = tr (k - 1) := by
    simpa using hfail.1
  have h2 : writeEvents (runSteps tr (init_sequence m) 0).2.2 =
      (stepWrites (init_sequence m)).take k := by
    have := hfail.2
    rw [hk] at this
    simpa using this
  have henable : st7703_enable m tr st =
      ((runSteps tr (init_sequence m) 0).1,
       (runSteps tr (init_sequence m) 0).2.2, st) := by
    simp only [st7703_enable]
    rw [if_pos (by rw [h1]; exact hrej)]
  have hnomem : ∀ w : BusWrite, w ∉ stepWrites (init_sequence m) →
      Event.write w ∉ (runSteps tr (init_sequence m) 0).2.2 := by
    intro w hw hmem
    apply hw
    have := mem_of_mem_writeEvents hmem
    rw [h2] at this
    exact List.take_subset k _ this
  refine ⟨h1, h2, ?_, ?_, ?_, ?_, ?_⟩
  · rw [henable]; exact h1
  · rw [henable]
  · rw [henable]
    exact hnomem _ (scripts_lack_exit_sleep_and_display_on m).1
  · rw [henable]
    exact hnomem _ (scripts_lack_exit_sleep_and_display_on m).2
  · rw [henable]

/-- Witness for C3: rejecting the very first write of the jh057n00900
script with -1 makes the script and enable return -1. -/
theorem st7703_script_fail_fast_witness :
    (1 ≤ scriptWriteCount Model.jh057n00900) ∧
    ((fun _ : Nat => (-1 : Int)) 0 < 0) ∧
    (st7703_enable Model.jh057n00900 (fun _ => -1) ⟨true⟩).1 = -1 :=
  ⟨by decide, by decide,
   (st7703_script_fail_fast Model.jh057n00900 (fun _ => -1) ⟨true⟩ 1
     (le_refl 1) (by decide) (fun j hj => absurd hj (by omega))
     (by decide)).2.2.1⟩

/-- C1 counterexample: from a prepared instance, the shutdown path's
trace records the unprepare operations (reset assertion, regulator
disables) before the disable operations (the two teardown bus writes),
so the display-off write does not precede the regulator disables as the
claimed disable-then-unprepare order would require. -/
theorem st7703_shutdown_order_counterexample :
    (st7703_shutdown (fun _ => 0) ⟨true⟩).1 =
      [Event.gpioSet 1, Event.regDisable Reg.iovcc, Event.regDisable Reg.vcc,
       Event.write (BusWrite.dcs MIPI_DCS_SET_DISPLAY_OFF []),
       Event.write (BusWrite.dcs MIPI_DCS_ENTER_SLEEP_MODE [])] ∧
    ¬ ((st7703_shutdown (fun _ => 0) ⟨true⟩).1.indexOf
         (Event.write (BusWrite.dcs MIPI_DCS_SET_DISPLAY_OFF [])) <
       (st7703_shutdown (fun _ => 0) ⟨true⟩).1.indexOf
         (Event.regDisable Reg.iovcc)) := by
  exact ⟨by decide, by decide⟩

/-- C1 (amended): on the shutdown/removal path the driver invokes
unprepare and then disable, in that source order, each exactly once
before the instance is destroyed, regardless of the current lifecycle
state: the shutdown trace is the unprepare trace (empty when not
prepared) followed by one disable trace, the final state is
unprepared, and remove produces the same trace via its single
st7703_shutdown call and returns 0. -/
theorem st7703_shutdown_spec (tr : Nat → Int) (b : Bool) :
    st7703_shutdown tr ⟨b⟩ =
      ((if b then
          [Event.gpioSet 1, Event.regDisable Reg.iovcc,
           Event.regDisable Reg.vcc]
        else []) ++ (st7703_disable tr ⟨false⟩).2.1,
       ⟨false⟩) ∧
    st7703_remove tr ⟨b⟩ = (0, (st7703_shutdown tr ⟨b⟩).1, ⟨false⟩) := by
  cases b <;>
    simp [st7703_shutdown, st7703_remove, st7703_unprepare, st7703_disable]

/-- C5 counterexample: the atm0784 initialization script contains no
msleep at all, so it has no mid-script settle delay between two of its
command writes. -/
theorem atm0784_no_delay_counterexample :
    scriptSleeps atm0784_init_sequence = [] ∧
    (∀ ms : Nat, Step.sleep ms ∉ atm0784_init_sequence) := by
  have h0 : scriptSleeps atm0784_init_sequence = [] := by decide
  exact ⟨h0, fun ms h => by simpa [h0] using mem_scriptSleeps_of_mem h⟩

/-- C5 (amended): every script is executed top-to-bottom with no
conditional logic (under an accepting transport each run emits one
event per statement, in order); the jh057n00900 and xbd599 scripts each
contain exactly one fixed 20 ms mid-script settle delay, located
between command writes (9 writes before and 5 after for jh057n00900,
13 before and 5 after for xbd599), while the atm0784 script contains
no delay. -/
theorem st7703_scripts_delay_spec :
    scriptSleeps jh057n_init_sequence = [20] ∧
    scriptSleeps xbd599_init_sequence = [20] ∧
    scriptSleeps atm0784_init_sequence = [] ∧
    jh057n_init_sequence.get? 9 = some (Step.sleep 20) ∧
    (stepWrites (jh057n_init_sequence.take 9)).length = 9 ∧
    (stepWrites (jh057n_init_sequence.drop 10)).length = 5 ∧
    xbd599_init_sequence.get? 13 = some (Step.sleep 20) ∧
    (stepWrites (xbd599_init_sequence.take 13)).length = 13 ∧
    (stepWrites (xbd599_init_sequence.drop 14)).length = 5 ∧
    (∀ m : Model, (runSteps (fun _ => 0) (init_sequence m) 0).2.2 =
      (init_sequence m).map stepEvent) := by
  refine ⟨by decide, by decide, by decide, by decide, by decide, by decide,
    by decide, by decide, by decide, ?_⟩
  intro m
  have := runSteps_ok (fun _ => 0) (init_sequence m) 0 (fun j _ => le_refl 0)
  rw [this]

/-- C9: evaluation of the atm0784 script's command blocks.  Block 7 is
the Set DSI block: its header write carries count byte 0x1C (28,
announcing a command id plus 27 parameters) but only 26 single-byte
parameter writes follow it, so 0x1C differs from 1 + 26; every other
block's count byte equals one plus its number of parameter writes. -/
theorem atm0784_setmipi_block_short :
    (atm0784Blocks.map (fun b => (b.1, b.2.1, b.2.2.length))).get? 7 =
      some (0x1C, ST7703_CMD_SETMIPI, 26) ∧
    (0x1C : Nat) ≠ 1 + 26 ∧
    (atm0784Blocks.filter (fun b => b.2.1 != ST7703_CMD_SETMIPI)).all
      (fun b => b.1 == 1 + b.2.2.length) = true ∧
    atm0784Blocks.all (fun b => b.1 == 1 + b.2.2.length) = false := by
  exact ⟨by decide, by decide, by decide, by decide⟩
